import Mathlib

/-!
# Verification of the github-stats-aggregator request handler

Shallow embedding of `api/index.js` (the Vercel serverless handler) of the
github-stats-aggregator repository, together with proofs of the specified
properties of its reconciliation policy, retrying star fetcher, contribution
fetcher, SVG renderer and HTTP response headers.

JavaScript numbers that hold star counts, cache values and contribution
counts are modelled as `Int` (every value the program actually stores in
them is an integer); the in-memory `highestStarsCache` entry for one
composite key is an `Option Int` (`none` = key absent), and the whole cache
is a function `String → Option Int`.  Network effects are modelled by
passing the sequence of outcomes the outside world would produce as an
explicit argument (an oracle), so every function below is a total,
executable Lean function.
-/

namespace StatsAggregator

/-! ## Reconciliation policy

Embedding of the decision logic of `module.exports` (api/index.js lines
356–406): given the freshly calculated star total and the cache entry for
the composite key, it decides the displayed total, whether the response may
be CDN-cached (`shouldCache`), and the cache entry afterwards.
`highestStoredStars` is `highestStarsCache[cacheKey] || 0`, i.e. `0` when
the key is absent (and also when a stored `0` would be read, since `0` is
falsy in JavaScript). -/

structure ReconcileResult where
  totalStars : Int
  shouldCache : Bool
  entry : Option Int
  deriving Repr, DecidableEq

/-- Lines 356–406 of api/index.js: the if/else-if chain that reconciles
`calculatedTotalStars` against `highestStarsCache[cacheKey]`.  The final
`else` branch (calculated equal to stored and nonzero) contains the guarded
write `if (calculatedTotalStars > 0 && highestStoredStars === 0)`, kept
verbatim here. -/
def reconcile (calculatedTotalStars : Int) (entry : Option Int) : ReconcileResult :=
  let highestStoredStars : Int := entry.getD 0
  if calculatedTotalStars > highestStoredStars then
    { totalStars := calculatedTotalStars
      shouldCache := true
      entry := some calculatedTotalStars }
  else if calculatedTotalStars = 0 then
    if highestStoredStars > 0 then
      { totalStars := highestStoredStars, shouldCache := false, entry := entry }
    else
      { totalStars := 0, shouldCache := false, entry := entry }
  else if calculatedTotalStars < highestStoredStars then
    { totalStars := highestStoredStars, shouldCache := false, entry := entry }
  else
    { totalStars := calculatedTotalStars
      shouldCache := true
      entry :=
        if calculatedTotalStars > 0 ∧ highestStoredStars = 0 then
          some calculatedTotalStars
        else entry }

/-- Lines 420–434 of api/index.js: the `Cache-Control` header chosen for the
SVG response.  `no-store` when `totalStars === 0 || !shouldCache`, otherwise
the long-lived CDN header. -/
def cacheControlHeader (totalStars : Int) (shouldCache : Bool) : String :=
  if totalStars = 0 ∨ shouldCache = false then
    "no-store, no-cache, must-revalidate, max-age=0"
  else
    "s-maxage=3600, stale-while-revalidate"

/-! ## Cache lifetime

One composite key of `highestStarsCache` over the lifetime of the process:
at module load `initializeCacheFromEnv` (lines 13–27) may seed the (empty)
entry from an environment variable, and afterwards every request applies
`reconcile`.  The result of JavaScript's `parseInt` on the environment
string is modelled as `Option Int` (`none` = `NaN`); the seed is kept only
when `!isNaN(value) && value > 0`. -/

inductive CacheOp where
  | seed (parsed : Option Int)
  | request (calculated : Int)
  deriving Repr, DecidableEq

/-- Effect of one operation on the cache entry for one key.  `seed` is
`initializeCacheFromEnv` (lines 13–27): it writes the parsed value iff it is
a number greater than zero.  `request` is the reconciliation step of one
request (lines 356–406). -/
def applyOp (op : CacheOp) (entry : Option Int) : Option Int :=
  match op with
  | .seed parsed =>
    match parsed with
    | some value => if 0 < value then some value else entry
    | none => entry
  | .request calculated => (reconcile calculated entry).entry

/-- The operations a single key sees over one process lifetime: the startup
seeding once (each environment variable key is unique, so one key is seeded
at most once), then the reconciliation step of each request for that key. -/
def lifetimeOps (seedParsed : Option Int) (requests : List Int) : List CacheOp :=
  CacheOp.seed seedParsed :: requests.map CacheOp.request

/-- All states the cache entry for one key goes through during a process
lifetime, starting from the empty cache (`none`). -/
def lifetimeStates (seedParsed : Option Int) (requests : List Int) : List (Option Int) :=
  (lifetimeOps seedParsed requests).scanl (fun entry op => applyOp op entry) none

/-- Displayed star totals of a sequence of requests for one key, starting
from a given cache entry. -/
def displayedList (entry : Option Int) : List Int → List Int
  | [] => []
  | calculated :: rest =>
    (reconcile calculated entry).totalStars ::
      displayedList (reconcile calculated entry).entry rest

/-- One cache-entry transition: the entry is either unchanged or strictly
increased (reading an absent entry as `0`, exactly as the handler's
`highestStarsCache[cacheKey] || 0` does). -/
def entryStep (a b : Option Int) : Prop := b = a ∨ a.getD 0 < b.getD 0

/-- A cache entry holds only strictly positive values (or is absent). -/
def EntryPos (e : Option Int) : Prop := ∀ v : Int, e = some v → 0 < v

/-! ## Star fetcher

`fetchStarsFromExternalAPI` (api/index.js lines 31–78) retries the outbound
GET on transient failure.  The network is an oracle: `outcomes attempt`
says what the call made on that attempt would observe. -/

/-- What one attempt of the outbound call to the star-count service can
observe: a payload whose `stars` field is a number, a malformed payload
(`stars` missing or non-numeric), or a thrown network/timeout error. -/
inductive FetchOutcome where
  | ok (stars : Int)
  | malformed
  | netError
  deriving Repr, DecidableEq

/-- Result of `fetchStarsFromExternalAPI`: the returned star count, the
backoff delays (milliseconds passed to `setTimeout`) slept between
attempts, and how many attempts were made. -/
structure FetchResult where
  stars : Int
  delaysMs : List Nat
  attemptsMade : Nat
  deriving Repr, DecidableEq

/-- The `for (let attempt = 1; attempt <= retries; attempt++)` loop of
lines 32–76.  A payload with positive numeric `stars` is returned at once;
a numeric zero is returned only on the last attempt (line 48); a negative
number falls through the `stars > 0` and `stars === 0` tests into the
invalid-format path (line 55), which, like a thrown error (line 64),
returns 0 on the last attempt; every other case sleeps `1000 * attempt`
milliseconds and retries.  Falling out of the loop (line 77) returns 0. -/
def fetchLoop (outcomes : Nat → FetchOutcome) (retries attempt : Nat) : FetchResult :=
  if _hle : attempt ≤ retries then
    match outcomes attempt with
    | .ok s =>
      if 0 < s then
        { stars := s, delaysMs := [], attemptsMade := 1 }
      else if s = 0 then
        if hz : attempt = retries then
          { stars := 0, delaysMs := [], attemptsMade := 1 }
        else
          let r := fetchLoop outcomes retries (attempt + 1)
          { stars := r.stars, delaysMs := 1000 * attempt :: r.delaysMs,
            attemptsMade := r.attemptsMade + 1 }
      else
        if hlt : attempt < retries then
          let r := fetchLoop outcomes retries (attempt + 1)
          { stars := r.stars, delaysMs := 1000 * attempt :: r.delaysMs,
            attemptsMade := r.attemptsMade + 1 }
        else
          { stars := 0, delaysMs := [], attemptsMade := 1 }
    | .malformed =>
      if hlt : attempt < retries then
        let r := fetchLoop outcomes retries (attempt + 1)
        { stars := r.stars, delaysMs := 1000 * attempt :: r.delaysMs,
          attemptsMade := r.attemptsMade + 1 }
      else
        { stars := 0, delaysMs := [], attemptsMade := 1 }
    | .netError =>
      if hlt : attempt < retries then
        let r := fetchLoop outcomes retries (attempt + 1)
        { stars := r.stars, delaysMs := 1000 * attempt :: r.delaysMs,
          attemptsMade := r.attemptsMade + 1 }
      else
        { stars := 0, delaysMs := [], attemptsMade := 1 }
  else
    { stars := 0, delaysMs := [], attemptsMade := 0 }
termination_by retries + 1 - attempt
decreasing_by all_goals omega

/-- Lines 31–78: `fetchStarsFromExternalAPI(username, retries = 3)`,
starting at attempt 1.  The source's `retries` parameter defaults to 3 and
no call site overrides it, so every caller below passes 3 explicitly. -/
def fetchStarsFromExternalAPI (outcomes : Nat → FetchOutcome)
    (retries : Nat) : FetchResult :=
  fetchLoop outcomes retries 1

/-- An attempt outcome the loop retries on while attempts remain: a thrown
error, a malformed payload, a numeric zero (suspected error, lines 43–54),
or a negative number (invalid format). -/
def transientOutcome : FetchOutcome → Bool
  | .ok s => decide (s ≤ 0)
  | .malformed => true
  | .netError => true

/-- Invariant of the retry loop entered at `attempt`: the returned count is
non-negative, at most `retries + 1 - attempt` further attempts are made (at
least one if any attempt remains), and the backoff delays slept are exactly
`1000 * a` ms for each non-final attempt `a`. -/
def FetchInv (retries attempt : Nat) (r : FetchResult) : Prop :=
  0 ≤ r.stars ∧ r.attemptsMade ≤ retries + 1 - attempt ∧
  (attempt ≤ retries → 1 ≤ r.attemptsMade) ∧
  r.delaysMs = (List.range' attempt (r.attemptsMade - 1)).map (fun a => 1000 * a)

/-! ## Contribution fetcher

`fetchPersonalContributionsFromGitHub` (lines 82–236). -/

/-- The four contribution counters extracted from
`user.contributionsCollection` (lines 215–220). -/
structure Contributions where
  totalCommits : Int
  totalPRs : Int
  totalIssues : Int
  contributedTo : Int
  deriving Repr, DecidableEq

/-- The zero-filled result returned on every degraded path (lines 87, 192,
198, 234). -/
def Contributions.zero : Contributions := ⟨0, 0, 0, 0⟩

/-- What one GraphQL POST can observe: a thrown network error, or a reply
that may carry API-level `errors` and may or may not contain a
`user.contributionsCollection` object (a missing `data` or `user` field is
the same as a missing collection for the code's checks). -/
inductive GraphQLReply where
  | netError
  | reply (hasErrors : Bool) (collection : Option Contributions)
  deriving Repr, DecidableEq

/-- Result of the contribution fetch plus how many outbound GraphQL calls
were issued. -/
structure ContribResult where
  contributions : Contributions
  graphQLCalls : Nat
  deriving Repr, DecidableEq

/-- JavaScript truthiness of `GITHUB_TOKEN` as tested by `!GITHUB_TOKEN`
(line 83): an unset variable and an empty string are both falsy. -/
def tokenMissing : Option String → Bool
  | none => true
  | some t => t.isEmpty

/-- Lines 170–199 as reached through the public-query fallback: a thrown
public query hits the outer catch (zeros, line 234); a reply with
API-level errors returns zeros (line 192); a reply without the collection
returns zeros (line 198); otherwise the counters are extracted. -/
def publicFallback : GraphQLReply → Contributions
  | .netError => Contributions.zero
  | .reply true _ => Contributions.zero
  | .reply false none => Contributions.zero
  | .reply false (some c) => c

/-- Lines 82–236: `fetchPersonalContributionsFromGitHub`.  A missing (or
empty, hence falsy) token short-circuits to zeros with no outbound call
(lines 83–88).  Otherwise the private-inclusive query is posted first; only
a reply carrying the collection is kept (lines 154–163), in which case the
API-level `errors` check (line 186) may still zero it out; any other
private outcome falls back to the public query. -/
def fetchPersonalContributionsFromGitHub (token : Option String)
    (privReply pubReply : GraphQLReply) : ContribResult :=
  if tokenMissing token then
    { contributions := Contributions.zero, graphQLCalls := 0 }
  else
    match privReply with
    | .reply hasErrors (some c) =>
      if hasErrors then { contributions := Contributions.zero, graphQLCalls := 1 }
      else { contributions := c, graphQLCalls := 1 }
    | .reply _ none => { contributions := publicFallback pubReply, graphQLCalls := 2 }
    | .netError => { contributions := publicFallback pubReply, graphQLCalls := 2 }

/-! ## SVG renderer

`generateSVG` (lines 239–320).  All layout arithmetic of the source
(`width = 450`, `height = 240`, `padding = 20`, `lineHeight = 22`,
`titleHeight = 25`, `topMargin = Math.floor(availableSpace / 2)`) evaluates
to whole numbers, so it is carried out in `Nat`; the fractional row offsets
`lineHeight * 0.5, 1.5, …` of lines 291–315 are written
`lineHeight * 1 / 2`, `lineHeight * 3 / 2`, …, which produce the same
integers (`lineHeight` is even). -/

/-- The `combinedData` object passed to `generateSVG` (lines 408–414). -/
structure MetricsSnapshot where
  totalStars : Int
  totalCommits : Int
  totalPRs : Int
  totalIssues : Int
  totalContributedTo : Int
  deriving Repr, DecidableEq

def textColor : String := "#c9d1d9"

def iconColor : String := "#58a6ff"

def bgColor : String := "#0d1117"

def borderColor : String := "#30363d"

def svgWidth : Nat := 450

def svgHeight : Nat := 240

def svgPadding : Nat := 20

def lineHeight : Nat := 22

def titleHeight : Nat := 25

def contentHeight : Nat := 5 * lineHeight

def totalContentHeight : Nat := titleHeight + contentHeight

def availableSpace : Nat := svgHeight - totalContentHeight

def topMargin : Nat := availableSpace / 2

/-- The `createRow` arrow function (lines 265–273): one labelled row of the
card. -/
def createRow (label : String) (value : Int) (y : Nat) (icon : String) : String :=
  s!"\n        <g transform=\"translate({svgPadding}, {y})\">\n            <text x=\"0\" y=\"0\" fill=\"{iconColor}\" font-size=\"14\">{icon}</text>\n            <text x=\"25\" y=\"0\" fill=\"{textColor}\" font-size=\"14\" font-weight=\"bold\">{label}:</text>\n            <text x=\"{svgWidth - svgPadding - 50}\" y=\"0\" fill=\"{textColor}\" font-size=\"14\" text-anchor=\"end\">{value}</text>\n        </g>\n    "

/-- Lines 239–320: `generateSVG`, the string template producing the card. -/
def generateSVG (data : MetricsSnapshot) : String :=
  s!"\n        <svg width=\"{svgWidth}\" height=\"{svgHeight}\" viewBox=\"0 0 {svgWidth} {svgHeight}\" fill=\"none\" xmlns=\"http://www.w3.org/2000/svg\" role=\"img\" aria-label=\"Combined GitHub Stats\">\n            <rect x=\"0.5\" y=\"0.5\" rx=\"4.5\" height=\"{svgHeight - 1}\" width=\"{svgWidth - 1}\" stroke=\"{borderColor}\" fill=\"{bgColor}\" stroke-opacity=\"1\"/>\n            <g transform=\"translate(0, {topMargin})\">\n                <text x=\"{svgWidth / 2}\" y=\"0\" fill=\"{textColor}\" font-size=\"18\" font-weight=\"bold\" text-anchor=\"middle\">\n                    Combined GitHub Stats\n                </text>\n            </g>\n\n            "
    ++ createRow "Total Stars" data.totalStars
        (topMargin + titleHeight + lineHeight * 1 / 2) "⭐"
    ++ "\n            "
    ++ createRow "Total Commits (Last 365 Days)" data.totalCommits
        (topMargin + titleHeight + lineHeight * 3 / 2) "📊"
    ++ "\n            "
    ++ createRow "Total PRs" data.totalPRs
        (topMargin + titleHeight + lineHeight * 5 / 2) "✅"
    ++ "\n            "
    ++ createRow "Total Issues" data.totalIssues
        (topMargin + titleHeight + lineHeight * 7 / 2) "❗"
    ++ "\n            "
    ++ createRow "Contributed to" data.totalContributedTo
        (topMargin + titleHeight + lineHeight * 9 / 2) "🤝"
    ++ "\n        </svg>\n    "

/-! ## Request handler

`module.exports` (lines 323–437). -/

/-- The parts of the incoming request the handler reads: the `test`
diagnostic flag (line 325) and the optional `user` / `org` query
parameters (lines 336–337). -/
structure Request where
  test : Bool
  user : Option String
  org : Option String
  deriving Repr, DecidableEq

/-- Lines 336–337, `req.query.user || "aligheshlaghi97"`: an absent or
empty (falsy) parameter falls back to the default. -/
def queryOrDefault (q : Option String) (dflt : String) : String :=
  match q with
  | none => dflt
  | some s => if s.isEmpty then dflt else s

/-- The response fields the handler sets: implicit status 200 (neither
`res.json` nor `res.send` changes it), `Content-Type`, the three caching
headers, and the body. -/
structure Response where
  status : Nat
  contentType : String
  cacheControl : Option String
  pragma : Option String
  expires : Option String
  body : String
  deriving Repr, DecidableEq

/-- Everything the outside world supplies during one request: the outcome
of each star-fetch attempt for the user and for the org, and the replies
to the two GraphQL queries.  The three fetches are dispatched concurrently
and joined by `Promise.all` (lines 344–348) before any shared state is
touched, so their results are plain oracle values. -/
structure World where
  userOutcomes : Nat → FetchOutcome
  orgOutcomes : Nat → FetchOutcome
  privReply : GraphQLReply
  pubReply : GraphQLReply

/-- Line 353: the composite cache key `` `${personalUsername}_${organizationName}` ``
built from the (defaulted) query parameters of lines 336–337. -/
def cacheKeyOf (req : Request) : String :=
  queryOrDefault req.user "aligheshlaghi97" ++ "_" ++
    queryOrDefault req.org "Finance-Insight-Lab"

/-- Line 350: `calculatedTotalStars = personalStars + orgStars`, the sum of
the two star fetches joined by `Promise.all`. -/
def calculatedStars (w : World) : Int :=
  (fetchStarsFromExternalAPI w.userOutcomes 3).stars +
    (fetchStarsFromExternalAPI w.orgOutcomes 3).stars

/-- Lines 325–334: the diagnostic JSON body (the real handler serializes
`req.query`; here the two parameters it could contain are echoed
directly). -/
def testEndpointBody (token : Option String) (timestamp : String) (req : Request) : String :=
  "\x7b\"message\":\"Test endpoint working\",\"timestamp\":\"" ++ timestamp
    ++ "\",\"githubToken\":\"" ++ (if tokenMissing token then "Not set" else "Set")
    ++ "\",\"query\":\"user=" ++ queryOrDefault req.user "" ++ ",org="
    ++ queryOrDefault req.org "" ++ "\"\x7d"

/-- Lines 323–437: the Vercel handler.  `cache` is the module-level
`highestStarsCache`; the composite key is `` `${user}_${org}` `` (line 353);
reconciliation (lines 356–406) runs strictly after the `Promise.all` join;
lines 420–434 pick the response headers.  Returns the response and the
cache afterwards. -/
def handler (token : Option String) (cache : String → Option Int)
    (req : Request) (w : World) (timestamp : String) :
    Response × (String → Option Int) :=
  if req.test then
    ({ status := 200, contentType := "application/json", cacheControl := none,
       pragma := none, expires := none,
       body := testEndpointBody token timestamp req }, cache)
  else
    let personalContributions :=
      (fetchPersonalContributionsFromGitHub token w.privReply w.pubReply).contributions
    let calculatedTotalStars := calculatedStars w
    let cacheKey := cacheKeyOf req
    let r := reconcile calculatedTotalStars (cache cacheKey)
    let combinedData : MetricsSnapshot :=
      { totalStars := r.totalStars
        totalCommits := personalContributions.totalCommits
        totalPRs := personalContributions.totalPRs
        totalIssues := personalContributions.totalIssues
        totalContributedTo := personalContributions.contributedTo }
    ({ status := 200
       contentType := "image/svg+xml"
       cacheControl := some (cacheControlHeader r.totalStars r.shouldCache)
       pragma := if r.totalStars = 0 ∨ r.shouldCache = false then some "no-cache" else none
       expires := if r.totalStars = 0 ∨ r.shouldCache = false then some "0" else none
       body := generateSVG combinedData },
     fun k => if k = cacheKey then r.entry else cache k)

/-! ## Case lemmas for `reconcile` -/

/-- First branch (line 363): a strictly larger calculated value is displayed
and written to the cache. -/
theorem reconcile_of_gt {c : Int} {e : Option Int} (h : e.getD 0 < c) :
    reconcile c e = ⟨c, true, some c⟩ := by
  simp only [reconcile]
  rw [if_pos h]

/-- Second branch (lines 371–379): calculated zero with a positive stored
value displays the stored value and leaves the entry alone. -/
theorem reconcile_of_zero_pos {e : Option Int} (h : 0 < e.getD 0) :
    reconcile 0 e = ⟨e.getD 0, false, e⟩ := by
  simp only [reconcile]
  rw [if_neg (by omega), if_pos trivial, if_pos h]

/-- Second branch, inner else (lines 380–387): calculated and stored both
zero displays zero and leaves the entry alone. -/
theorem reconcile_of_zero_zero {e : Option Int} (h : e.getD 0 = 0) :
    reconcile 0 e = ⟨0, false, e⟩ := by
  simp only [reconcile]
  rw [if_neg (by omega), if_pos trivial, if_neg (by omega)]

/-- Third branch (lines 388–394): a nonzero calculated value below the
stored one displays the stored value and leaves the entry alone. -/
theorem reconcile_of_lt {c : Int} {e : Option Int} (hne : c ≠ 0) (h : c < e.getD 0) :
    reconcile c e = ⟨e.getD 0, false, e⟩ := by
  simp only [reconcile]
  rw [if_neg (by omega), if_neg hne, if_pos h]

/-- Final else branch (lines 395–406): calculated equal to stored (and
nonzero, since the zero case was caught earlier) displays it; the guarded
write `calculated > 0 && stored === 0` can never fire here, so the entry is
unchanged. -/
theorem reconcile_of_eq {c : Int} {e : Option Int} (hne : c ≠ 0) (h : c = e.getD 0) :
    reconcile c e = ⟨c, true, e⟩ := by
  simp only [reconcile]
  rw [if_neg (by omega), if_neg hne, if_neg (by omega), if_neg (by omega)]

/-! ## Shared consequences of the case analysis -/

/-- The displayed total is always the maximum of the calculated value and
the stored value. -/
theorem reconcile_totalStars_max (c : Int) (e : Option Int) :
    (reconcile c e).totalStars = max c (e.getD 0) := by
  rcases lt_trichotomy (e.getD 0) c with h | h | h
  · rw [reconcile_of_gt h]
    show c = max c (e.getD 0)
    omega
  · by_cases hc : c = 0
    · subst hc
      rw [reconcile_of_zero_zero h]
      show (0 : Int) = max 0 (e.getD 0)
      omega
    · rw [reconcile_of_eq hc h.symm]
      show c = max c (e.getD 0)
      omega
  · by_cases hc : c = 0
    · subst hc
      rw [reconcile_of_zero_pos h]
      show e.getD 0 = max 0 (e.getD 0)
      omega
    · rw [reconcile_of_lt hc h]
      show e.getD 0 = max c (e.getD 0)
      omega

/-- The cache entry after a reconciliation step: replaced by `calculated`
exactly when it strictly exceeds the stored value, untouched otherwise. -/
theorem reconcile_entry_ite (c : Int) (e : Option Int) :
    (reconcile c e).entry = if e.getD 0 < c then some c else e := by
  rcases lt_trichotomy (e.getD 0) c with h | h | h
  · rw [reconcile_of_gt h, if_pos h]
  · by_cases hc : c = 0
    · subst hc
      rw [reconcile_of_zero_zero h, if_neg (by omega)]
    · rw [reconcile_of_eq hc h.symm, if_neg (by omega)]
  · by_cases hc : c = 0
    · subst hc
      rw [reconcile_of_zero_pos h, if_neg (by omega)]
    · rw [reconcile_of_lt hc h, if_neg (by omega)]

/-- The stored value after a step is the maximum of the calculated and the
previously stored value. -/
theorem reconcile_entry_getD_max (c : Int) (e : Option Int) :
    ((reconcile c e).entry).getD 0 = max c (e.getD 0) := by
  rw [reconcile_entry_ite]
  by_cases h : e.getD 0 < c
  · rw [if_pos h]
    show c = max c (e.getD 0)
    omega
  · rw [if_neg h]
    omega

/-- Each reconciliation step either leaves the cache entry unchanged or
replaces it by a strictly larger value. -/
theorem reconcile_entry_monotone (c : Int) (e : Option Int) :
    (reconcile c e).entry = e ∨ e.getD 0 < ((reconcile c e).entry).getD 0 := by
  rw [reconcile_entry_ite]
  by_cases h : e.getD 0 < c
  · right
    rw [if_pos h]
    simpa using h
  · left
    rw [if_neg h]

/-! ## Cache lifetime lemmas -/

/-- The first element of a `scanl` is its starting value. -/
theorem head?_scanl {α β : Type} (f : β → α → β) (b : β) (l : List α) :
    (List.scanl f b l).head? = some b := by
  cases l <;> simp [List.scanl_nil, List.scanl_cons]

/-- Along any run of reconciliation steps, consecutive cache entries are
related by `entryStep`. -/
theorem chain'_scanl_requests (requests : List Int) :
    ∀ e : Option Int,
      List.Chain' entryStep
        ((requests.map CacheOp.request).scanl (fun entry op => applyOp op entry) e) := by
  induction requests with
  | nil =>
    intro e
    simp [List.scanl_nil]
  | cons c rest ih =>
    intro e
    rw [List.map_cons, List.scanl_cons, List.singleton_append]
    refine List.chain'_cons'.mpr ⟨?_, ih _⟩
    intro y hy
    rw [head?_scanl, Option.mem_some_iff] at hy
    subst hy
    exact reconcile_entry_monotone c e

theorem entryPos_getD_nonneg {e : Option Int} (h : EntryPos e) : 0 ≤ e.getD 0 := by
  cases e with
  | none => simp
  | some v => simpa using le_of_lt (h v rfl)

/-- Every operation (environment seeding, request reconciliation) preserves
positivity of the stored value. -/
theorem applyOp_entryPos (op : CacheOp) (e : Option Int) (h : EntryPos e) :
    EntryPos (applyOp op e) := by
  cases op with
  | seed parsed =>
    cases parsed with
    | none => exact h
    | some v =>
      by_cases hv : 0 < v
      · intro w hw
        simp only [applyOp, if_pos hv] at hw
        injection hw with hvw
        subst hvw
        exact hv
      · intro w hw
        simp only [applyOp, if_neg hv] at hw
        exact h w hw
  | request c =>
    intro w hw
    simp only [applyOp] at hw
    rw [reconcile_entry_ite] at hw
    by_cases hc : e.getD 0 < c
    · rw [if_pos hc] at hw
      injection hw with hcw
      subst hcw
      have := entryPos_getD_nonneg h
      omega
    · rw [if_neg hc] at hw
      exact h w hw

/-- Positivity of the entry is an invariant of any run of cache
operations. -/
theorem scanl_entryPos (ops : List CacheOp) :
    ∀ e : Option Int, EntryPos e →
      ∀ x ∈ ops.scanl (fun entry op => applyOp op entry) e, EntryPos x := by
  induction ops with
  | nil =>
    intro e he x hx
    rw [List.scanl_nil, List.mem_singleton] at hx
    subst hx
    exact he
  | cons op rest ih =>
    intro e he x hx
    rw [List.scanl_cons, List.singleton_append, List.mem_cons] at hx
    rcases hx with rfl | hx
    · exact he
    · exact ih _ (applyOp_entryPos op e he) x hx

/-- The displayed totals of any request sequence form a non-decreasing
chain (each display equals the new stored maximum, and the next display is
at least the stored maximum). -/
theorem displayedList_chain (l : List Int) :
    ∀ e : Option Int, List.Chain' (· ≤ ·) (displayedList e l) := by
  induction l with
  | nil =>
    intro e
    simp [displayedList]
  | cons c rest ih =>
    intro e
    simp only [displayedList]
    refine List.chain'_cons'.mpr ⟨?_, ih _⟩
    intro y hy
    cases rest with
    | nil => simp [displayedList] at hy
    | cons c2 r2 =>
      simp only [displayedList, List.head?_cons, Option.mem_some_iff] at hy
      subst hy
      rw [reconcile_totalStars_max c2 _, reconcile_totalStars_max c e,
        reconcile_entry_getD_max c e]
      exact le_max_right _ _

/-! ## Retry-loop lemmas -/

theorem fetchLoop_of_ok_pos {outcomes : Nat → FetchOutcome} {retries attempt : Nat} {s : Int}
    (hle : attempt ≤ retries) (hout : outcomes attempt = .ok s) (hs : 0 < s) :
    fetchLoop outcomes retries attempt = ⟨s, [], 1⟩ := by
  rw [fetchLoop.eq_def]
  simp only [dif_pos hle, hout, if_pos hs]

theorem fetchLoop_of_ok_zero_last {outcomes : Nat → FetchOutcome} {retries : Nat}
    (hout : outcomes retries = .ok 0) :
    fetchLoop outcomes retries retries = ⟨0, [], 1⟩ := by
  rw [fetchLoop.eq_def]
  simp only [dif_pos (le_refl retries), hout]
  norm_num

theorem fetchLoop_of_ok_zero_retry {outcomes : Nat → FetchOutcome} {retries attempt : Nat}
    (hle : attempt ≤ retries) (hne : attempt ≠ retries) (hout : outcomes attempt = .ok 0) :
    fetchLoop outcomes retries attempt =
      ⟨(fetchLoop outcomes retries (attempt + 1)).stars,
        1000 * attempt :: (fetchLoop outcomes retries (attempt + 1)).delaysMs,
        (fetchLoop outcomes retries (attempt + 1)).attemptsMade + 1⟩ := by
  rw [fetchLoop.eq_def]
  simp only [dif_pos hle, hout, dif_neg hne]
  norm_num

theorem fetchLoop_of_ok_neg {outcomes : Nat → FetchOutcome} {retries attempt : Nat} {s : Int}
    (hle : attempt ≤ retries) (hout : outcomes attempt = .ok s) (hpos : ¬0 < s) (hz : s ≠ 0) :
    fetchLoop outcomes retries attempt =
      (if attempt < retries then
        ⟨(fetchLoop outcomes retries (attempt + 1)).stars,
          1000 * attempt :: (fetchLoop outcomes retries (attempt + 1)).delaysMs,
          (fetchLoop outcomes retries (attempt + 1)).attemptsMade + 1⟩
      else ⟨0, [], 1⟩) := by
  rw [fetchLoop.eq_def]
  simp only [dif_pos hle, hout, if_neg hpos, if_neg hz]
  by_cases hlt : attempt < retries
  · rw [dif_pos hlt, if_pos hlt]
  · rw [dif_neg hlt, if_neg hlt]

theorem fetchLoop_of_malformed {outcomes : Nat → FetchOutcome} {retries attempt : Nat}
    (hle : attempt ≤ retries) (hout : outcomes attempt = .malformed) :
    fetchLoop outcomes retries attempt =
      (if attempt < retries then
        ⟨(fetchLoop outcomes retries (attempt + 1)).stars,
          1000 * attempt :: (fetchLoop outcomes retries (attempt + 1)).delaysMs,
          (fetchLoop outcomes retries (attempt + 1)).attemptsMade + 1⟩
      else ⟨0, [], 1⟩) := by
  rw [fetchLoop.eq_def]
  simp only [dif_pos hle, hout]
  by_cases hlt : attempt < retries
  · rw [dif_pos hlt, if_pos hlt]
  · rw [dif_neg hlt, if_neg hlt]

theorem fetchLoop_of_netError {outcomes : Nat → FetchOutcome} {retries attempt : Nat}
    (hle : attempt ≤ retries) (hout : outcomes attempt = .netError) :
    fetchLoop outcomes retries attempt =
      (if attempt < retries then
        ⟨(fetchLoop outcomes retries (attempt + 1)).stars,
          1000 * attempt :: (fetchLoop outcomes retries (attempt + 1)).delaysMs,
          (fetchLoop outcomes retries (attempt + 1)).attemptsMade + 1⟩
      else ⟨0, [], 1⟩) := by
  rw [fetchLoop.eq_def]
  simp only [dif_pos hle, hout]
  by_cases hlt : attempt < retries
  · rw [dif_pos hlt, if_pos hlt]
  · rw [dif_neg hlt, if_neg hlt]

theorem fetchLoop_of_exhausted {outcomes : Nat → FetchOutcome} {retries attempt : Nat}
    (h : ¬attempt ≤ retries) :
    fetchLoop outcomes retries attempt = ⟨0, [], 0⟩ := by
  rw [fetchLoop.eq_def]
  simp only [dif_neg h]

theorem fetchLoop_inv (outcomes : Nat → FetchOutcome) (retries attempt : Nat) :
    FetchInv retries attempt (fetchLoop outcomes retries attempt) := by
  refine fetchLoop.induct outcomes retries
    (fun a => FetchInv retries a (fetchLoop outcomes retries a))
    ?_ ?_ ?_ ?_ ?_ ?_ ?_ ?_ ?_ ?_ attempt
  · intro x hle a hout hpos
    rw [fetchLoop_of_ok_pos hle hout hpos]
    refine ⟨le_of_lt hpos, ?_, fun _ => le_refl 1, by simp⟩
    show 1 ≤ retries + 1 - x
    omega
  · intro h0 hle hout
    rw [fetchLoop_of_ok_zero_last hout]
    refine ⟨le_refl 0, ?_, fun _ => le_refl 1, by simp⟩
    show 1 ≤ retries + 1 - retries
    omega
  · intro x hle hne hout h0 ih
    rw [fetchLoop_of_ok_zero_retry hle hne hout]
    obtain ⟨ih1, ih2, ih3, ih4⟩ := ih
    have h1 : 1 ≤ (fetchLoop outcomes retries (x + 1)).attemptsMade := ih3 (by omega)
    refine ⟨ih1, ?_, fun _ => ?_, ?_⟩
    · show (fetchLoop outcomes retries (x + 1)).attemptsMade + 1 ≤ retries + 1 - x
      omega
    · show 1 ≤ (fetchLoop outcomes retries (x + 1)).attemptsMade + 1
      omega
    · show 1000 * x :: (fetchLoop outcomes retries (x + 1)).delaysMs =
        (List.range' x ((fetchLoop outcomes retries (x + 1)).attemptsMade + 1 - 1)).map
          (fun a => 1000 * a)
      rw [ih4]
      have h2 : (fetchLoop outcomes retries (x + 1)).attemptsMade + 1 - 1 =
          ((fetchLoop outcomes retries (x + 1)).attemptsMade - 1) + 1 := by omega
      rw [h2, List.range'_succ]
      simp
  · intro x hle a hout hpos hz hlt ih
    rw [fetchLoop_of_ok_neg hle hout hpos hz, if_pos hlt]
    obtain ⟨ih1, ih2, ih3, ih4⟩ := ih
    have h1 : 1 ≤ (fetchLoop outcomes retries (x + 1)).attemptsMade := ih3 (by omega)
    refine ⟨ih1, ?_, fun _ => ?_, ?_⟩
    · show (fetchLoop outcomes retries (x + 1)).attemptsMade + 1 ≤ retries + 1 - x
      omega
    · show 1 ≤ (fetchLoop outcomes retries (x + 1)).attemptsMade + 1
      omega
    · show 1000 * x :: (fetchLoop outcomes retries (x + 1)).delaysMs =
        (List.range' x ((fetchLoop outcomes retries (x + 1)).attemptsMade + 1 - 1)).map
          (fun a => 1000 * a)
      rw [ih4]
      have h2 : (fetchLoop outcomes retries (x + 1)).attemptsMade + 1 - 1 =
          ((fetchLoop outcomes retries (x + 1)).attemptsMade - 1) + 1 := by omega
      rw [h2, List.range'_succ]
      simp
  · intro x hle a hout hpos hz hlt
    rw [fetchLoop_of_ok_neg hle hout hpos hz, if_neg hlt]
    refine ⟨le_refl 0, ?_, fun _ => le_refl 1, by simp⟩
    show 1 ≤ retries + 1 - x
    omega
  · intro x hle hout hlt ih
    rw [fetchLoop_of_malformed hle hout, if_pos hlt]
    obtain ⟨ih1, ih2, ih3, ih4⟩ := ih
    have h1 : 1 ≤ (fetchLoop outcomes retries (x + 1)).attemptsMade := ih3 (by omega)
    refine ⟨ih1, ?_, fun _ => ?_, ?_⟩
    · show (fetchLoop outcomes retries (x + 1)).attemptsMade + 1 ≤ retries + 1 - x
      omega
    · show 1 ≤ (fetchLoop outcomes retries (x + 1)).attemptsMade + 1
      omega
    · show 1000 * x :: (fetchLoop outcomes retries (x + 1)).delaysMs =
        (List.range' x ((fetchLoop outcomes retries (x + 1)).attemptsMade + 1 - 1)).map
          (fun a => 1000 * a)
      rw [ih4]
      have h2 : (fetchLoop outcomes retries (x + 1)).attemptsMade + 1 - 1 =
          ((fetchLoop outcomes retries (x + 1)).attemptsMade - 1) + 1 := by omega
      rw [h2, List.range'_succ]
      simp
  · intro x hle hout hlt
    rw [fetchLoop_of_malformed hle hout, if_neg hlt]
    refine ⟨le_refl 0, ?_, fun _ => le_refl 1, by simp⟩
    show 1 ≤ retries + 1 - x
    omega
  · intro x hle hout hlt ih
    rw [fetchLoop_of_netError hle hout, if_pos hlt]
    obtain ⟨ih1, ih2, ih3, ih4⟩ := ih
    have h1 : 1 ≤ (fetchLoop outcomes retries (x + 1)).attemptsMade := ih3 (by omega)
    refine ⟨ih1, ?_, fun _ => ?_, ?_⟩
    · show (fetchLoop outcomes retries (x + 1)).attemptsMade + 1 ≤ retries + 1 - x
      omega
    · show 1 ≤ (fetchLoop outcomes retries (x + 1)).attemptsMade + 1
      omega
    · show 1000 * x :: (fetchLoop outcomes retries (x + 1)).delaysMs =
        (List.range' x ((fetchLoop outcomes retries (x + 1)).attemptsMade + 1 - 1)).map
          (fun a => 1000 * a)
      rw [ih4]
      have h2 : (fetchLoop outcomes retries (x + 1)).attemptsMade + 1 - 1 =
          ((fetchLoop outcomes retries (x + 1)).attemptsMade - 1) + 1 := by omega
      rw [h2, List.range'_succ]
      simp
  · intro x hle hout hlt
    rw [fetchLoop_of_netError hle hout, if_neg hlt]
    refine ⟨le_refl 0, ?_, fun _ => le_refl 1, by simp⟩
    show 1 ≤ retries + 1 - x
    omega
  · intro x hnle
    rw [fetchLoop_of_exhausted hnle]
    refine ⟨le_refl 0, ?_, fun h => absurd h hnle, by simp⟩
    show 0 ≤ retries + 1 - x
    omega

/-- On a transient outcome with attempts remaining, the loop sleeps
`1000 * attempt` ms and recurses. -/
theorem fetchLoop_transient_step {outcomes : Nat → FetchOutcome} {retries attempt : Nat}
    (hlt : attempt < retries) (ht : transientOutcome (outcomes attempt) = true) :
    fetchLoop outcomes retries attempt =
      ⟨(fetchLoop outcomes retries (attempt + 1)).stars,
        1000 * attempt :: (fetchLoop outcomes retries (attempt + 1)).delaysMs,
        (fetchLoop outcomes retries (attempt + 1)).attemptsMade + 1⟩ := by
  cases hout : outcomes attempt with
  | ok s =>
    rw [hout] at ht
    simp only [transientOutcome, decide_eq_true_eq] at ht
    by_cases hz : s = 0
    · subst hz
      exact fetchLoop_of_ok_zero_retry (by omega) (by omega) hout
    · rw [fetchLoop_of_ok_neg (by omega) hout (by omega) hz, if_pos hlt]
  | malformed => rw [fetchLoop_of_malformed (by omega) hout, if_pos hlt]
  | netError => rw [fetchLoop_of_netError (by omega) hout, if_pos hlt]

/-- On the final attempt the loop always returns without recursing. -/
theorem fetchLoop_attempts_last (outcomes : Nat → FetchOutcome) (retries : Nat) :
    (fetchLoop outcomes retries retries).attemptsMade = 1 := by
  cases hout : outcomes retries with
  | ok s =>
    rcases lt_trichotomy 0 s with h | h | h
    · rw [fetchLoop_of_ok_pos (le_refl retries) hout h]
    · rw [fetchLoop_of_ok_zero_last (h ▸ hout)]
    · rw [fetchLoop_of_ok_neg (le_refl retries) hout (by omega) (by omega),
        if_neg (lt_irrefl retries)]
  | malformed =>
    rw [fetchLoop_of_malformed (le_refl retries) hout, if_neg (lt_irrefl retries)]
  | netError =>
    rw [fetchLoop_of_netError (le_refl retries) hout, if_neg (lt_irrefl retries)]

/-- The `shouldCache` flag is set exactly on the two branches the source marks
cacheable: a strictly larger calculated value, or one equal to the stored
value and nonzero. -/
theorem reconcile_shouldCache (c : Int) (e : Option Int) :
    (reconcile c e).shouldCache = true ↔
      (e.getD 0 < c ∨ (c = e.getD 0 ∧ c ≠ 0)) := by
  rcases lt_trichotomy (e.getD 0) c with h | h | h
  · rw [reconcile_of_gt h]
    simp only [true_iff]
    exact Or.inl h
  · by_cases hc : c = 0
    · subst hc
      rw [reconcile_of_zero_zero h]
      simp [h]
    · rw [reconcile_of_eq hc h.symm]
      simp only [true_iff]
      exact Or.inr ⟨h.symm, hc⟩
  · by_cases hc : c = 0
    · subst hc
      rw [reconcile_of_zero_pos h]
      constructor
      · intro hfalse
        exact absurd hfalse (by simp)
      · intro hyp
        rcases hyp with h1 | ⟨h1, h2⟩
        · omega
        · exact absurd h1.symm (by omega)
    · rw [reconcile_of_lt hc h]
      constructor
      · intro hfalse
        exact absurd hfalse (by simp)
      · intro hyp
        rcases hyp with h1 | ⟨h1, h2⟩
        · omega
        · omega

section Sanity

example : (reconcile 27 none).totalStars = 27 := by decide
example : (reconcile 27 none).entry = some 27 := by decide
example : reconcile 0 (some 27) = ⟨27, false, some 27⟩ := by decide
example : reconcile 15 (some 27) = ⟨27, false, some 27⟩ := by decide
example : reconcile 40 (some 27) = ⟨40, true, some 40⟩ := by decide
example : reconcile 27 (some 27) = ⟨27, true, some 27⟩ := by decide
example : reconcile 0 none = ⟨0, false, none⟩ := by decide
example : lifetimeStates (some 5) [0, 3, 9] = [none, some 5, some 5, some 5, some 9] := by decide
example : displayedList none [27, 0, 15, 40] = [27, 27, 27, 40] := by decide

example : fetchStarsFromExternalAPI (fun _ => .ok 27) 3 = ⟨27, [], 1⟩ := by
  simp [fetchStarsFromExternalAPI, fetchLoop]

example : fetchStarsFromExternalAPI (fun _ => .netError) 3 = ⟨0, [1000, 2000], 3⟩ := by
  simp [fetchStarsFromExternalAPI, fetchLoop]

example : fetchStarsFromExternalAPI (fun a => if a < 3 then .ok 0 else .ok 9) 3 =
    ⟨9, [1000, 2000], 3⟩ := by
  simp [fetchStarsFromExternalAPI, fetchLoop]

example : fetchStarsFromExternalAPI (fun _ => .ok 0) 3 = ⟨0, [1000, 2000], 3⟩ := by
  simp [fetchStarsFromExternalAPI, fetchLoop]

example : fetchPersonalContributionsFromGitHub none .netError .netError =
    ⟨⟨0, 0, 0, 0⟩, 0⟩ := rfl

example : fetchPersonalContributionsFromGitHub (some "") .netError .netError =
    ⟨⟨0, 0, 0, 0⟩, 0⟩ := rfl

example : fetchPersonalContributionsFromGitHub (some "t")
    (.reply false (some ⟨1, 2, 3, 4⟩)) .netError = ⟨⟨1, 2, 3, 4⟩, 1⟩ := rfl

example : fetchPersonalContributionsFromGitHub (some "t")
    (.reply true (some ⟨1, 2, 3, 4⟩)) (.reply false (some ⟨5, 6, 7, 8⟩)) =
    ⟨⟨0, 0, 0, 0⟩, 1⟩ := rfl

example : fetchPersonalContributionsFromGitHub (some "t")
    .netError (.reply false (some ⟨5, 6, 7, 8⟩)) = ⟨⟨5, 6, 7, 8⟩, 2⟩ := rfl

example : fetchPersonalContributionsFromGitHub (some "t")
    (.reply false none) .netError = ⟨⟨0, 0, 0, 0⟩, 2⟩ := rfl

example : topMargin = 52 := rfl
example : topMargin + titleHeight + lineHeight * 1 / 2 = 88 := rfl
example : topMargin + titleHeight + lineHeight * 9 / 2 = 176 := rfl

example :
    (handler none (fun _ => some 27) ⟨false, none, none⟩
        ⟨fun _ => .ok 0, fun _ => .ok 0, .netError, .netError⟩ "").1.cacheControl =
      some "no-store, no-cache, must-revalidate, max-age=0" := by
  simp [handler, calculatedStars, fetchStarsFromExternalAPI, fetchLoop, cacheKeyOf,
    queryOrDefault, reconcile, cacheControlHeader]

example :
    (handler none (fun _ => some 27) ⟨false, none, none⟩
        ⟨fun _ => .ok 25, fun _ => .ok 15, .netError, .netError⟩ "").2
      "aligheshlaghi97_Finance-Insight-Lab" = some 40 := by
  simp [handler, calculatedStars, fetchStarsFromExternalAPI, fetchLoop, cacheKeyOf,
    queryOrDefault, reconcile]

example :
    (handler (some "tok") (fun _ => none) ⟨true, none, none⟩
        ⟨fun _ => .ok 25, fun _ => .ok 15, .netError, .netError⟩ "2024").1.contentType =
      "application/json" := rfl

end Sanity

/-! ## Claims -/

/-- Claim C1: for every pair of non-negative integers (calculated, stored)
presented to the reconciliation step, the displayed total and the cache
update follow the spec's five-row decision table, evaluated in order:
`calculated > stored` displays `calculated` and sets the entry to it;
`calculated == 0` with `stored > 0` displays `stored` without updating;
`calculated == 0` with `stored == 0` displays 0 without updating;
`0 < calculated < stored` displays `stored` without updating; and
`calculated == stored > 0` displays `calculated`, setting the entry to
`calculated` only if the key was previously absent/zero (which cannot
co-occur with `stored > 0`, so the entry is in fact unchanged). -/
theorem reconcile_decision_table (c : Int) (e : Option Int)
    (hc : 0 ≤ c) (_hs : 0 ≤ e.getD 0) :
    (e.getD 0 < c →
      (reconcile c e).totalStars = c ∧ (reconcile c e).entry = some c) ∧
    (c = 0 → 0 < e.getD 0 →
      (reconcile c e).totalStars = e.getD 0 ∧ (reconcile c e).entry = e) ∧
    (c = 0 → e.getD 0 = 0 →
      (reconcile c e).totalStars = 0 ∧ (reconcile c e).entry = e) ∧
    (0 < c → c < e.getD 0 →
      (reconcile c e).totalStars = e.getD 0 ∧ (reconcile c e).entry = e) ∧
    (c = e.getD 0 → 0 < c →
      (reconcile c e).totalStars = c ∧
        (reconcile c e).entry = if e.getD 0 = 0 then some c else e) := by
  refine ⟨?_, ?_, ?_, ?_, ?_⟩
  · intro h
    rw [reconcile_of_gt h]
    exact ⟨rfl, rfl⟩
  · intro h0 hpos
    subst h0
    rw [reconcile_of_zero_pos hpos]
    exact ⟨rfl, rfl⟩
  · intro h0 hz
    subst h0
    rw [reconcile_of_zero_zero hz]
    exact ⟨rfl, rfl⟩
  · intro hpos hlt
    rw [reconcile_of_lt (by omega) hlt]
    exact ⟨rfl, rfl⟩
  · intro heq hpos
    rw [reconcile_of_eq (by omega) heq, if_neg (by omega)]
    exact ⟨rfl, rfl⟩

/-- Witness for C1: spec Scenario A, `calculated = 27` against an empty
cache entry, lands in the first table row. -/
theorem reconcile_decision_table_witness :
    (reconcile 27 none).totalStars = 27 ∧ (reconcile 27 none).entry = some 27 :=
  (reconcile_decision_table 27 none (by decide) (by decide)).1 (by decide)

/-- Claim C2: for every key, over the whole process lifetime (environment
seeding at startup, then every request's reconciliation step), each
operation either leaves the cache entry unchanged or replaces it with a
strictly larger value, so the stored value is monotonically
non-decreasing. -/
theorem cache_value_monotone (seedParsed : Option Int) (requests : List Int) :
    List.Chain' entryStep (lifetimeStates seedParsed requests) := by
  unfold lifetimeStates lifetimeOps
  rw [List.scanl_cons, List.singleton_append]
  refine List.chain'_cons'.mpr ⟨?_, chain'_scanl_requests requests _⟩
  intro y hy
  rw [head?_scanl, Option.mem_some_iff] at hy
  subst hy
  cases seedParsed with
  | none => exact Or.inl rfl
  | some v =>
    simp only [applyOp]
    by_cases hv : 0 < v
    · rw [if_pos hv]
      exact Or.inr (by simpa using hv)
    · rw [if_neg hv]
      exact Or.inl rfl

/-- Claim C3: across any sequence of reconciliation calls for one key, the
displayed totals are non-decreasing whenever at least one positive
calculated value occurs in the sequence (in fact unconditionally: each
display equals the new stored maximum, and the next display is at least
it). -/
theorem displayed_monotone (e : Option Int) (vs : List Int)
    (_hobs : ∃ v ∈ vs, 0 < v) :
    List.Chain' (· ≤ ·) (displayedList e vs) :=
  displayedList_chain vs e

/-- Witness for C3: the run 27, 0, 15, 40 from an empty entry displays
27, 27, 27, 40. -/
theorem displayed_monotone_witness :
    List.Chain' (· ≤ ·) (displayedList none [27, 0, 15, 40]) :=
  displayed_monotone none [27, 0, 15, 40] (by decide)

/-- Claim C7: a reconciliation call with `calculated == 0` leaves the cache
entry entirely unchanged, and any number of repeated zero calls displays
exactly the stored value when it is positive and 0 otherwise — never more
than the last positive stored value. -/
theorem zero_calculated_frame (e : Option Int) (n : Nat) (hs : 0 ≤ e.getD 0) :
    (reconcile 0 e).entry = e ∧
    (reconcile 0 e).totalStars = (if 0 < e.getD 0 then e.getD 0 else 0) ∧
    displayedList e (List.replicate n 0) =
      List.replicate n (if 0 < e.getD 0 then e.getD 0 else 0) := by
  have hent : (reconcile 0 e).entry = e := by
    by_cases h : 0 < e.getD 0
    · rw [reconcile_of_zero_pos h]
    · rw [reconcile_of_zero_zero (by omega)]
  have hdisp : (reconcile 0 e).totalStars = (if 0 < e.getD 0 then e.getD 0 else 0) := by
    by_cases h : 0 < e.getD 0
    · rw [reconcile_of_zero_pos h, if_pos h]
    · rw [reconcile_of_zero_zero (by omega), if_neg h]
  refine ⟨hent, hdisp, ?_⟩
  induction n with
  | zero => simp [displayedList]
  | succ m ih =>
    rw [List.replicate_succ, List.replicate_succ]
    simp only [displayedList]
    rw [hent, hdisp, ih]

/-- Witness for C7: two zero calls against a stored 27 display 27 twice and
leave the entry alone (spec Scenario B). -/
theorem zero_calculated_frame_witness :
    (reconcile 0 (some 27)).entry = some 27 ∧
    (reconcile 0 (some 27)).totalStars =
      (if 0 < (some (27 : Int)).getD 0 then (some (27 : Int)).getD 0 else 0) ∧
    displayedList (some 27) (List.replicate 2 0) =
      List.replicate 2 (if 0 < (some (27 : Int)).getD 0 then (some (27 : Int)).getD 0 else 0) :=
  zero_calculated_frame (some 27) 2 (by decide)

/-- Claim C9: the reconciliation step displays exactly
`max(calculated, stored)`; afterwards the entry is `calculated` exactly
when `calculated > stored` and unchanged otherwise; in particular the
displayed value is at least the stored value. -/
theorem reconcile_display_max (c : Int) (e : Option Int)
    (_hc : 0 ≤ c) (_hs : 0 ≤ e.getD 0) :
    (reconcile c e).totalStars = max c (e.getD 0) ∧
    (reconcile c e).entry = (if e.getD 0 < c then some c else e) ∧
    e.getD 0 ≤ (reconcile c e).totalStars := by
  refine ⟨reconcile_totalStars_max c e, reconcile_entry_ite c e, ?_⟩
  rw [reconcile_totalStars_max c e]
  omega

/-- Witness for C9 at `calculated = 15`, stored 27 (spec Scenario C). -/
theorem reconcile_display_max_witness :
    (reconcile 15 (some 27)).totalStars = max 15 ((some (27 : Int)).getD 0) ∧
    (reconcile 15 (some 27)).entry =
      (if (some (27 : Int)).getD 0 < 15 then some 15 else some 27) ∧
    (some (27 : Int)).getD 0 ≤ (reconcile 15 (some 27)).totalStars :=
  reconcile_display_max 15 (some 27) (by decide) (by decide)

/-- Claim C10: every value ever held in the cache over a process lifetime is
strictly positive: seeding discards `NaN` and non-positive parses, and the
reconciliation step writes only values strictly above the (non-negative)
stored one, so no operation ever stores zero. -/
theorem cache_values_positive (seedParsed : Option Int) (requests : List Int) :
    ∀ e ∈ lifetimeStates seedParsed requests, ∀ v : Int, e = some v → 0 < v := by
  intro e he
  exact scanl_entryPos (lifetimeOps seedParsed requests) none
    (fun v hv => Option.noConfusion hv) e he

/-- Witness for C10: in the lifetime seeded with 5 and then one request
with calculated 3, the state `some 5` occurs and its value is positive. -/
theorem cache_values_positive_witness : (0 : Int) < 5 :=
  cache_values_positive (some 5) [3] (some 5) (by decide) 5 rfl

/-- Claim C5: for every pattern of attempt outcomes, the star fetch with the
source's bound of 3 returns a non-negative integer; it makes at most 3
attempts, and exactly 3 when the first two are transient (error, malformed,
zero, or negative); the backoff slept after each non-final attempt `a` is
exactly `1000 * a` ms, i.e. linearly increasing; and a malformed or missing
`stars` field on every attempt degrades to 0 once retries exhaust.  The
function is total (never throws) by construction. -/
theorem fetch_stars_contract (outcomes : Nat → FetchOutcome) :
    0 ≤ (fetchStarsFromExternalAPI outcomes 3).stars ∧
    (fetchStarsFromExternalAPI outcomes 3).attemptsMade ≤ 3 ∧
    (fetchStarsFromExternalAPI outcomes 3).delaysMs =
      (List.range' 1 ((fetchStarsFromExternalAPI outcomes 3).attemptsMade - 1)).map
        (fun a => 1000 * a) ∧
    (transientOutcome (outcomes 1) = true → transientOutcome (outcomes 2) = true →
      (fetchStarsFromExternalAPI outcomes 3).attemptsMade = 3) ∧
    ((∀ a, outcomes a = FetchOutcome.malformed) →
      (fetchStarsFromExternalAPI outcomes 3).stars = 0) := by
  obtain ⟨h1, h2, _h3, h4⟩ := fetchLoop_inv outcomes 3 1
  refine ⟨h1, by simpa [fetchStarsFromExternalAPI] using h2, h4, ?_, ?_⟩
  · intro ht1 ht2
    show (fetchLoop outcomes 3 1).attemptsMade = 3
    rw [fetchLoop_transient_step (by omega) ht1]
    show (fetchLoop outcomes 3 2).attemptsMade + 1 = 3
    rw [fetchLoop_transient_step (by omega) ht2]
    show ((fetchLoop outcomes 3 3).attemptsMade + 1) + 1 = 3
    rw [fetchLoop_attempts_last]
  · intro hmal
    show (fetchLoop outcomes 3 1).stars = 0
    rw [fetchLoop_transient_step (by omega) (by rw [hmal 1]; rfl)]
    show (fetchLoop outcomes 3 2).stars = 0
    rw [fetchLoop_transient_step (by omega) (by rw [hmal 2]; rfl)]
    show (fetchLoop outcomes 3 3).stars = 0
    rw [fetchLoop_of_malformed (le_refl 3) (hmal 3), if_neg (lt_irrefl 3)]

/-- Witness for C5: three network errors in a row exhaust all 3 attempts. -/
theorem fetch_stars_contract_witness :
    (fetchStarsFromExternalAPI (fun _ => FetchOutcome.netError) 3).attemptsMade = 3 :=
  (fetch_stars_contract (fun _ => FetchOutcome.netError)).2.2.2.1 rfl rfl

/-- Claim C8: the renderer is a pure function of its snapshot: two snapshots
agreeing on all five metric fields render byte-identical SVG strings.  The
template contains no timestamp at all; the "(Last 365 Days)" window label
is a fixed string baked into the template, so nothing varies with the
wall clock. -/
theorem generateSVG_deterministic (d1 d2 : MetricsSnapshot)
    (hstars : d1.totalStars = d2.totalStars)
    (hcommits : d1.totalCommits = d2.totalCommits)
    (hprs : d1.totalPRs = d2.totalPRs)
    (hissues : d1.totalIssues = d2.totalIssues)
    (hcontrib : d1.totalContributedTo = d2.totalContributedTo) :
    generateSVG d1 = generateSVG d2 := by
  have h : d1 = d2 := by
    cases d1
    cases d2
    simp_all
  rw [h]

/-- Witness for C8 at a concrete snapshot. -/
theorem generateSVG_deterministic_witness :
    generateSVG ⟨27, 120, 14, 3, 8⟩ = generateSVG ⟨27, 120, 14, 3, 8⟩ :=
  generateSVG_deterministic ⟨27, 120, 14, 3, 8⟩ ⟨27, 120, 14, 3, 8⟩ rfl rfl rfl rfl rfl

/-- Claim C6: with the credential absent, the contribution fetch returns the
zero-filled result immediately, issuing no outbound GraphQL call and (being
a total function) raising no exception, and the handler still produces a
status-200 `image/svg+xml` response whose body is the rendered card with
all four contribution fields zero. -/
theorem missing_token_degrades (cache : String → Option Int)
    (req : Request) (w : World) (timestamp : String)
    (hreq : req.test = false) :
    (fetchPersonalContributionsFromGitHub none w.privReply w.pubReply).contributions =
      Contributions.zero ∧
    (fetchPersonalContributionsFromGitHub none w.privReply w.pubReply).graphQLCalls = 0 ∧
    (handler none cache req w timestamp).1.status = 200 ∧
    (handler none cache req w timestamp).1.contentType = "image/svg+xml" ∧
    (handler none cache req w timestamp).1.body =
      generateSVG
        { totalStars := (reconcile (calculatedStars w) (cache (cacheKeyOf req))).totalStars
          totalCommits := 0
          totalPRs := 0
          totalIssues := 0
          totalContributedTo := 0 } := by
  refine ⟨rfl, rfl, ?_, ?_, ?_⟩ <;>
    simp [handler, hreq, fetchPersonalContributionsFromGitHub, tokenMissing,
      Contributions.zero]

/-- Witness for C6: a concrete tokenless request (all fetches failing)
still yields status 200. -/
theorem missing_token_degrades_witness :
    (handler none (fun _ => none) ⟨false, none, none⟩
        ⟨fun _ => FetchOutcome.netError, fun _ => FetchOutcome.netError,
          GraphQLReply.netError, GraphQLReply.netError⟩ "").1.status = 200 :=
  (missing_token_degrades (fun _ => none) ⟨false, none, none⟩
    ⟨fun _ => FetchOutcome.netError, fun _ => FetchOutcome.netError,
      GraphQLReply.netError, GraphQLReply.netError⟩ "" rfl).2.2.1

/-- Claim C4: for every non-test request (over cache entries with
non-negative read value, the only reachable ones), the response carries
the long-lived `s-maxage=3600, stale-while-revalidate` header exactly when
the displayed total is positive and the calculated value was promoted into
or confirmed equal to the cache (`stored ≤ calculated`), and carries the
explicit no-store header whenever the displayed total is zero, or
`calculated = 0`, or `calculated < stored`. -/
theorem cache_header_policy (token : Option String) (cache : String → Option Int)
    (req : Request) (w : World) (timestamp : String)
    (hreq : req.test = false)
    (hs : 0 ≤ (cache (cacheKeyOf req)).getD 0) :
    ((handler token cache req w timestamp).1.cacheControl =
        some "s-maxage=3600, stale-while-revalidate" ↔
      (0 < (reconcile (calculatedStars w) (cache (cacheKeyOf req))).totalStars ∧
        (cache (cacheKeyOf req)).getD 0 ≤ calculatedStars w)) ∧
    (((reconcile (calculatedStars w) (cache (cacheKeyOf req))).totalStars = 0 ∨
        calculatedStars w = 0 ∨
        calculatedStars w < (cache (cacheKeyOf req)).getD 0) →
      (handler token cache req w timestamp).1.cacheControl =
        some "no-store, no-cache, must-revalidate, max-age=0") := by
  have hcc : (handler token cache req w timestamp).1.cacheControl =
      some (cacheControlHeader
        (reconcile (calculatedStars w) (cache (cacheKeyOf req))).totalStars
        (reconcile (calculatedStars w) (cache (cacheKeyOf req))).shouldCache) := by
    simp [handler, hreq]
  rw [hcc]
  set c := calculatedStars w with hc_def
  set e := cache (cacheKeyOf req) with he_def
  have hmax := reconcile_totalStars_max c e
  have hsc := reconcile_shouldCache c e
  unfold cacheControlHeader
  by_cases hcond :
      (reconcile c e).totalStars = 0 ∨ (reconcile c e).shouldCache = false
  · rw [if_pos hcond]
    refine ⟨iff_of_false (by decide) ?_, fun _ => rfl⟩
    rintro ⟨hpos, hle⟩
    rcases hcond with h0 | hb
    · omega
    · have hnp : ¬(e.getD 0 < c ∨ (c = e.getD 0 ∧ c ≠ 0)) := by
        intro hp
        have hbt := hsc.mpr hp
        rw [hb] at hbt
        exact Bool.noConfusion hbt
      rw [hmax] at hpos
      omega
  · rw [if_neg hcond]
    push_neg at hcond
    obtain ⟨h0, hbne⟩ := hcond
    have hb : (reconcile c e).shouldCache = true := by
      cases hbool : (reconcile c e).shouldCache
      · exact absurd hbool hbne
      · rfl
    have hp := hsc.mp hb
    refine ⟨iff_of_true rfl ?_, fun hbad => ?_⟩
    · constructor
      · rw [hmax]
        rw [hmax] at h0
        rcases hp with h | ⟨h1, h2⟩
        · omega
        · omega
      · rcases hp with h | ⟨h1, h2⟩ <;> omega
    · exfalso
      rcases hbad with hd | hc0 | hlt
      · exact h0 hd
      · rcases hp with h | ⟨h1, h2⟩ <;> omega
      · rcases hp with h | ⟨h1, h2⟩ <;> omega

/-- Witness for C4: spec Scenario D (stored 27, calculated 40 via two
successful fetches of 25 and 15): the cacheable header is set. -/
theorem cache_header_policy_witness :
    (handler none
        (fun k => if k = "aligheshlaghi97_Finance-Insight-Lab" then some 27 else none)
        ⟨false, none, none⟩
        ⟨fun _ => FetchOutcome.ok 25, fun _ => FetchOutcome.ok 15,
          GraphQLReply.netError, GraphQLReply.netError⟩ "").1.cacheControl =
      some "s-maxage=3600, stale-while-revalidate" := by
  refine ((cache_header_policy none
      (fun k => if k = "aligheshlaghi97_Finance-Insight-Lab" then some 27 else none)
      ⟨false, none, none⟩
      ⟨fun _ => FetchOutcome.ok 25, fun _ => FetchOutcome.ok 15,
        GraphQLReply.netError, GraphQLReply.netError⟩ "" rfl
      (by simp [cacheKeyOf, queryOrDefault])).1).mpr ?_
  constructor <;>
    simp [calculatedStars, fetchStarsFromExternalAPI, fetchLoop, cacheKeyOf,
      queryOrDefault, reconcile]

end StatsAggregator
